import Mathlib

/-!
Shallow embedding of the drata-agent repository: the Go CLI sync
orchestration (`cli/cmd/sync.go` `runSync`, the daemon `performSync`),
the persistent data store (`cli/internal/datastore/datastore.go`), the
API client (`cli/internal/api/client.go`), the registration handshake
(`runRegister`), the TypeScript CLI sync flow and the osquery-path
validator (`src/cli/helpers/cli-process.helper.ts` plus the TS CLI entry
point), and the Linux telemetry probes (the two `getLinuxSystemInfo`
variants and their helpers).

Modelling conventions:
  * External effects (HTTP calls, the osquery engine, shell probes, the
    system clock) are inputs: each call site receives the value the
    external call would have produced (`Except`/`Option` for fallible
    calls).  Error classification of HTTP responses is collapsed into
    the error string carried by the input.
  * Persistent-store writes are pure record updates (the Go store
    re-serializes synchronously on every mutation; write failures of the
    underlying file are not modelled).
  * Each orchestration function additionally returns the ordered trace
    of observable events (store writes of sync state / attempt
    timestamp, network calls, the snapshot collection) so that temporal
    claims ("X happens strictly before Y", "zero network calls") can be
    stated about the trace.
-/

namespace DrataAgent

/-- Sync state constants from `datastore.go`; Go models `SyncState` as a
string whose zero value is the empty string. -/
def syncStateSuccess : String := "SUCCESS"

/-- Error sync state. -/
def syncStateError : String := "ERROR"

/-- Running sync state. -/
def syncStateRunning : String := "RUNNING"

/-- Unknown sync state. -/
def syncStateUnknown : String := "UNKNOWN"

/-- User record persisted by the Go data store (`datastore.go`). -/
structure User where
  id : Int := 0
  entryId : String := ""
  email : String := ""
  firstName : String := ""
  lastName : String := ""
  jobTitle : String := ""
  avatarUrl : String := ""
  roles : List String := []
  drataTermsAgreedAt : String := ""
  createdAt : String := ""
  updatedAt : String := ""
  signature : String := ""
  language : String := ""
  deriving Repr, DecidableEq

/-- Response of `POST /agentv2/register` and the `data` member of the sync
response (`client.go` `AgentV2Response`). -/
structure AgentV2Response where
  lastCheckedAt : String := ""
  winAvServicesMatchList : List String := []
  deriving Repr, DecidableEq

/-- Response of `POST /agentv2/sync` (`client.go` `SyncResponse`). -/
structure SyncResponse where
  data : AgentV2Response := {}
  winAvServicesMatchList : List String := []
  deriving Repr, DecidableEq

/-- Response of `GET /agentv2/init` (`client.go` `InitDataResponse`). -/
structure InitDataResponse where
  winAvServicesMatchList : List String := []
  deriving Repr, DecidableEq

/-- Response of `POST /auth/magic-link/:token` (`client.go` `AuthResponse`). -/
structure AuthResponse where
  accessToken : String := ""
  deriving Repr, DecidableEq

/-- Response of `GET /users/me` (`client.go` `MeResponse`); only the fields
the data store keeps are carried. -/
structure MeResponse where
  id : Int := 0
  entryId : String := ""
  email : String := ""
  firstName : String := ""
  lastName : String := ""
  jobTitle : String := ""
  avatarUrl : String := ""
  roles : List String := []
  drataTermsAgreedAt : String := ""
  createdAt : String := ""
  updatedAt : String := ""
  signature : String := ""
  language : String := ""
  deriving Repr, DecidableEq

/-- The Go persistent data store (`datastore.go` `DataStore`).  The Go
field `WinAvServicesMatchList []string` distinguishes `nil` from an empty
slice (`IsInitDataReady` tests `!= nil`), hence `Option (List String)`.
`ComplianceData interface\x7b\x7d` receives the whole `SyncResponse` in
`Client.Sync`, hence `Option SyncResponse`. -/
structure DataStore where
  uuid : String := ""
  appVersion : String := ""
  accessToken : String := ""
  user : Option User := none
  syncState : String := ""
  lastCheckedAt : String := ""
  lastSyncAttemptedAt : String := ""
  complianceData : Option SyncResponse := none
  winAvServicesMatchList : Option (List String) := none
  region : String := ""
  deriving Repr, DecidableEq

/-- `DataStore.SetSyncState` (datastore.go): field write plus synchronous
save; the save is a pure no-op in this embedding. -/
def DataStore.SetSyncState (ds : DataStore) (s : String) : DataStore :=
  { ds with syncState := s }

/-- `DataStore.SetLastSyncAttemptedAt` (datastore.go). -/
def DataStore.SetLastSyncAttemptedAt (ds : DataStore) (t : String) : DataStore :=
  { ds with lastSyncAttemptedAt := t }

/-- `DataStore.SetLastCheckedAt` (datastore.go). -/
def DataStore.SetLastCheckedAt (ds : DataStore) (t : String) : DataStore :=
  { ds with lastCheckedAt := t }

/-- `DataStore.SetAccessToken` (datastore.go). -/
def DataStore.SetAccessToken (ds : DataStore) (t : String) : DataStore :=
  { ds with accessToken := t }

/-- `DataStore.SetUser` (datastore.go). -/
def DataStore.SetUser (ds : DataStore) (u : Option User) : DataStore :=
  { ds with user := u }

/-- `DataStore.SetUUID` (datastore.go). -/
def DataStore.SetUUID (ds : DataStore) (u : String) : DataStore :=
  { ds with uuid := u }

/-- `DataStore.SetAppVersion` (datastore.go). -/
def DataStore.SetAppVersion (ds : DataStore) (v : String) : DataStore :=
  { ds with appVersion := v }

/-- `DataStore.SetRegion` (datastore.go). -/
def DataStore.SetRegion (ds : DataStore) (r : String) : DataStore :=
  { ds with region := r }

/-- `DataStore.SetWinAvServicesMatchList` (datastore.go): stores a
non-`nil` slice. -/
def DataStore.SetWinAvServicesMatchList (ds : DataStore) (l : List String) : DataStore :=
  { ds with winAvServicesMatchList := some l }

/-- `DataStore.GetSyncState` (datastore.go). -/
def DataStore.GetSyncState (ds : DataStore) : String := ds.syncState

/-- `DataStore.IsRegistered` (datastore.go): a non-empty access token
means registered. -/
def DataStore.IsRegistered (ds : DataStore) : Bool := ds.accessToken ≠ ""

/-- `DataStore.IsInitDataReady` (datastore.go): the cached init list is
not `nil`. -/
def DataStore.IsInitDataReady (ds : DataStore) : Bool :=
  ds.winAvServicesMatchList.isSome

/-- Interface to Go `time`: RFC3339 parsing and the two truncated-unit
elapsed measures derived from `time.Since`.  `parseRFC3339` returns the
parsed instant (an abstract `Int`) or `none` when `time.Parse` errors;
`minutesSince t` is `int(time.Since(t).Minutes())` and `hoursSince t` is
`int(time.Since(t).Hours())`. -/
structure TimeEnv where
  parseRFC3339 : String → Option Int
  minutesSince : Int → Int
  hoursSince : Int → Int

/-- `DataStore.MinutesSinceLastAttempt` (datastore.go lines 351-366):
`-1` for an empty or unparseable `lastSyncAttemptedAt`, otherwise the
elapsed whole minutes. -/
def DataStore.MinutesSinceLastAttempt (ds : DataStore) (env : TimeEnv) : Int :=
  if ds.lastSyncAttemptedAt = "" then -1
  else
    match env.parseRFC3339 ds.lastSyncAttemptedAt with
    | none => -1
    | some t => env.minutesSince t

/-- `DataStore.HoursSinceLastSuccess` (datastore.go lines 368-383):
`-1` for an empty or unparseable `lastCheckedAt`, otherwise the elapsed
whole hours. -/
def DataStore.HoursSinceLastSuccess (ds : DataStore) (env : TimeEnv) : Int :=
  if ds.lastCheckedAt = "" then -1
  else
    match env.parseRFC3339 ds.lastCheckedAt with
    | none => -1
    | some t => env.hoursSince t

/-- Go CLI configuration (`internal/config` `Config`); the defaults are
those of `DefaultConfig`. -/
structure Config where
  region : String := "NA"
  targetEnv : String := "PROD"
  syncIntervalHours : Int := 2
  minHoursSinceLastSync : Int := 24
  minMinutesBetweenSyncs : Int := 15
  osqueryPath : String := ""
  version : String := "3.9.0-cli"
  deriving Repr, DecidableEq

/-- Telemetry snapshot header (`osquery.go` `QueryResult`).  The
`rawQueryResults` bag is not inspected by any orchestration code path, so
it is not carried here; the Linux probe sections are embedded separately
below. -/
structure QueryResult where
  drataAgentVersion : String := ""
  platform : String := ""
  manualRun : Bool := false
  deriving Repr, DecidableEq

/-- Observable events of one orchestration run, in execution order. -/
inductive Event where
  | setSyncState (s : String)
  | setLastSyncAttemptedAt (t : String)
  | netInitData
  | netSync
  | netAuth
  | netGetMe
  | netRegister
  | collect
  deriving Repr, DecidableEq

/-- Outcomes the external API layer can produce for each endpoint
(already past transport, HTTP status classification and JSON decoding). -/
structure ApiBehavior where
  initData : Except String InitDataResponse
  syncResp : QueryResult → Except String SyncResponse
  authResp : Except String AuthResponse
  meResp : Except String MeResponse
  registerResp : Except String AgentV2Response

/-- `Client.GetInitData` (client.go lines 259-283): performs the `GET
/agentv2/init` call; on success a non-empty list is cached in the store. -/
def Client.GetInitData (api : ApiBehavior) (ds : DataStore) :
    Except String InitDataResponse × DataStore × List Event :=
  match api.initData with
  | .error e => (.error e, ds, [.netInitData])
  | .ok r =>
    (.ok r,
     if r.winAvServicesMatchList.length > 0 then
       ds.SetWinAvServicesMatchList r.winAvServicesMatchList
     else ds,
     [.netInitData])

/-- `Client.Sync` (client.go lines 226-256): performs the `POST
/agentv2/sync` call; on success the store is bulk-updated with the
compliance payload, the returned `lastCheckedAt`, and (when non-empty)
the updated match list, mirroring the `Update` map. -/
def Client.Sync (api : ApiBehavior) (q : QueryResult) (ds : DataStore) :
    Except String SyncResponse × DataStore × List Event :=
  match api.syncResp q with
  | .error e => (.error e, ds, [.netSync])
  | .ok r =>
    (.ok r,
     { ds with
        complianceData := some r
        lastCheckedAt := r.data.lastCheckedAt
        winAvServicesMatchList :=
          if r.winAvServicesMatchList.length > 0 then some r.winAvServicesMatchList
          else ds.winAvServicesMatchList },
     [.netSync])

/-- `Client.GetMe` (client.go lines 159-197): fetches the profile and
persists the user on success. -/
def Client.GetMe (api : ApiBehavior) (ds : DataStore) :
    Except String MeResponse × DataStore × List Event :=
  match api.meResp with
  | .error e => (.error e, ds, [.netGetMe])
  | .ok me =>
    (.ok me,
     ds.SetUser (some
       { id := me.id, entryId := me.entryId, email := me.email
         firstName := me.firstName, lastName := me.lastName
         jobTitle := me.jobTitle, avatarUrl := me.avatarUrl
         roles := me.roles, drataTermsAgreedAt := me.drataTermsAgreedAt
         createdAt := me.createdAt, updatedAt := me.updatedAt
         signature := me.signature, language := me.language }),
     [.netGetMe])

/-- `Client.LoginWithMagicLink` (client.go lines 132-157): the bootstrap
token exchange.  A non-empty access token from the auth response is
persisted immediately; then the profile fetch (`GetMe`) runs. -/
def Client.LoginWithMagicLink (api : ApiBehavior) (ds : DataStore) :
    Except String MeResponse × DataStore × List Event :=
  match api.authResp with
  | .error e => (.error e, ds, [.netAuth])
  | .ok a =>
    let ds := if a.accessToken ≠ "" then ds.SetAccessToken a.accessToken else ds
    match Client.GetMe api ds with
    | (r, ds, ev) => (r, ds, .netAuth :: ev)

/-- `Client.Register` (client.go lines 199-224): the `POST
/agentv2/register` call; a non-empty `lastCheckedAt` is persisted. -/
def Client.Register (api : ApiBehavior) (ds : DataStore) :
    Except String AgentV2Response × DataStore × List Event :=
  match api.registerResp with
  | .error e => (.error e, ds, [.netRegister])
  | .ok r =>
    (.ok r,
     if r.lastCheckedAt ≠ "" then ds.SetLastCheckedAt r.lastCheckedAt else ds,
     [.netRegister])

/-- The external world of one sync run: API behaviour, the result of the
osquery client initialization (`osquery.NewClientWithVerbose`, which
fails when no engine binary can be located), the snapshot the platform
adapter would collect (`osq.GetSystemInfo`), the time library, and the
formatted current instant written to `lastSyncAttemptedAt`.  The daemon
initializes its osquery client once before scheduling any tick, so
`performSync` does not consult `osqueryInit`. -/
structure SyncWorld where
  api : ApiBehavior
  osqueryInit : Except String Unit
  collectResult : Except String QueryResult
  time : TimeEnv
  nowStr : String

/-- Result of one embedded orchestration run: the Go return value, the
final store, the event trace and the informational skip messages. -/
structure SyncRun where
  result : Except String Unit
  store : DataStore
  events : List Event
  logs : List String

/-- Throttle-skip message of `runSync` (sync.go line 72): carries the
elapsed minutes and the remaining wait `MinMinutesBetweenSyncs -
minutesSinceLastAttempt`. -/
def runSyncTooSoonMsg (minutesAgo waitMore : Int) : String :=
  "sync was attempted " ++ toString minutesAgo ++
    " minutes ago. Wait " ++ toString waitMore ++ " more minutes or use --force"

/-- Recent-success skip message of `runSync` (sync.go line 78). -/
def runSyncRecentMsg (hoursAgo : Int) : String :=
  "Last successful sync was " ++ toString hoursAgo ++
    " hours ago. Skipping automatic sync."

/-- Throttle-skip log of the daemon `performSync` (daemon source line
133): carries the elapsed minutes and the configured minimum — not the
remaining wait. -/
def performSyncTooSoonMsg (minutesAgo minMinutes : Int) : String :=
  "Last sync attempt was " ++ toString minutesAgo ++
    " minutes ago, skipping (min: " ++ toString minMinutes ++ ")"

/-- Recent-success skip log of the daemon `performSync` (line 139). -/
def performSyncRecentMsg (hoursAgo minHours : Int) : String :=
  "Last successful sync was " ++ toString hoursAgo ++
    " hours ago, skipping (min: " ++ toString minHours ++ ")"

/-- Collection and upload steps of `runSync` (sync.go lines 122-158),
shared by both init-data branches: collect the snapshot, stamp
`ManualRun` from the force flag, upload, set the terminal state. -/
def runSyncAfterInit (w : SyncWorld) (forceSync : Bool) (ds : DataStore)
    (ev : List Event) : SyncRun :=
  match w.collectResult with
  | .error e =>
    ⟨.error ("failed to collect system information: " ++ e),
     ds.SetSyncState syncStateError,
     ev ++ [.collect, .setSyncState syncStateError], []⟩
  | .ok q =>
    let q := { q with manualRun := forceSync }
    match Client.Sync w.api q ds with
    | (.error e, ds, evS) =>
      ⟨.error ("failed to sync: " ++ e),
       ds.SetSyncState syncStateError,
       ev ++ [.collect] ++ evS ++ [.setSyncState syncStateError], []⟩
    | (.ok _, ds, evS) =>
      ⟨.ok (),
       ds.SetSyncState syncStateSuccess,
       ev ++ [.collect] ++ evS ++ [.setSyncState syncStateSuccess], []⟩

/-- Tail of `runSync` after all throttle checks (sync.go lines 99-158):
persist `RUNNING` and the attempt timestamp, fetch init data when it is
not cached, then collect and upload. -/
def runSyncPipeline (w : SyncWorld) (forceSync : Bool) (ds : DataStore) : SyncRun :=
  let ds := (ds.SetSyncState syncStateRunning).SetLastSyncAttemptedAt w.nowStr
  let ev : List Event :=
    [.setSyncState syncStateRunning, .setLastSyncAttemptedAt w.nowStr]
  if ds.IsInitDataReady then
    runSyncAfterInit w forceSync ds ev
  else
    match Client.GetInitData w.api ds with
    | (.error e, ds, evI) =>
      ⟨.error ("failed to get initialization data: " ++ e),
       ds.SetSyncState syncStateError,
       ev ++ evI ++ [.setSyncState syncStateError], []⟩
    | (.ok _, ds, evI) => runSyncAfterInit w forceSync ds (ev ++ evI)

/-- `runSync` of the CLI `sync` command (sync.go lines 46-159), after
config/store initialization.  All three throttle checks — including the
`RUNNING` single-run guard — live inside `if !forceSync`.  Between the
throttle checks and the `RUNNING` write sits the osquery client
initialization (sync.go lines 85-88): its failure returns before any
state write or network call. -/
def runSync (cfg : Config) (w : SyncWorld) (forceSync : Bool) (ds : DataStore) : SyncRun :=
  if ¬ ds.IsRegistered then
    ⟨.error "agent is not registered. Use \x27drata-agent register\x27 first", ds, [], []⟩
  else if forceSync = false ∧ ds.GetSyncState = syncStateRunning then
    ⟨.error "sync is already in progress", ds, [], []⟩
  else if forceSync = false ∧ 0 ≤ ds.MinutesSinceLastAttempt w.time ∧
      ds.MinutesSinceLastAttempt w.time < cfg.minMinutesBetweenSyncs then
    ⟨.error (runSyncTooSoonMsg (ds.MinutesSinceLastAttempt w.time)
        (cfg.minMinutesBetweenSyncs - ds.MinutesSinceLastAttempt w.time)), ds, [], []⟩
  else if forceSync = false ∧ 0 ≤ ds.HoursSinceLastSuccess w.time ∧
      ds.HoursSinceLastSuccess w.time < cfg.minHoursSinceLastSync then
    ⟨.ok (), ds, [],
     [runSyncRecentMsg (ds.HoursSinceLastSuccess w.time), "Use --force to sync anyway."]⟩
  else
    match w.osqueryInit with
    | .error e => ⟨.error ("failed to initialize osquery: " ++ e), ds, [], []⟩
    | .ok _ => runSyncPipeline w forceSync ds

/-- Collection and upload steps of the daemon `performSync` (daemon
source lines 162-184); unlike `runSync` it does not stamp `ManualRun`. -/
def performSyncAfterInit (w : SyncWorld) (ds : DataStore) (ev : List Event) : SyncRun :=
  match w.collectResult with
  | .error e =>
    ⟨.error ("failed to collect system info: " ++ e),
     ds.SetSyncState syncStateError,
     ev ++ [.collect, .setSyncState syncStateError], []⟩
  | .ok q =>
    match Client.Sync w.api q ds with
    | (.error e, ds, evS) =>
      ⟨.error ("failed to sync: " ++ e),
       ds.SetSyncState syncStateError,
       ev ++ [.collect] ++ evS ++ [.setSyncState syncStateError], []⟩
    | (.ok _, ds, evS) =>
      ⟨.ok (),
       ds.SetSyncState syncStateSuccess,
       ev ++ [.collect] ++ evS ++ [.setSyncState syncStateSuccess], []⟩

/-- Pipeline tail of the daemon `performSync` (daemon source lines
143-184). -/
def performSyncPipeline (w : SyncWorld) (ds : DataStore) : SyncRun :=
  let ds := (ds.SetSyncState syncStateRunning).SetLastSyncAttemptedAt w.nowStr
  let ev : List Event :=
    [.setSyncState syncStateRunning, .setLastSyncAttemptedAt w.nowStr]
  if ds.IsInitDataReady then
    performSyncAfterInit w ds ev
  else
    match Client.GetInitData w.api ds with
    | (.error e, ds, evI) =>
      ⟨.error ("failed to get init data: " ++ e),
       ds.SetSyncState syncStateError,
       ev ++ evI ++ [.setSyncState syncStateError], []⟩
    | (.ok _, ds, evI) => performSyncAfterInit w ds (ev ++ evI)

/-- The daemon tick `performSync` (daemon source lines 124-185).  The
three throttle checks run unconditionally (there is no force flag); each
skip returns `nil` after logging.  The daemon's osquery client is
initialized once in `runDaemon` (lines 69-73) before any tick, so a tick
has no client-init branch. -/
def performSync (cfg : Config) (w : SyncWorld) (ds : DataStore) : SyncRun :=
  if ds.GetSyncState = syncStateRunning then
    ⟨.ok (), ds, [], ["Sync already in progress, skipping"]⟩
  else if 0 ≤ ds.MinutesSinceLastAttempt w.time ∧
      ds.MinutesSinceLastAttempt w.time < cfg.minMinutesBetweenSyncs then
    ⟨.ok (), ds, [],
     [performSyncTooSoonMsg (ds.MinutesSinceLastAttempt w.time) cfg.minMinutesBetweenSyncs]⟩
  else if 0 ≤ ds.HoursSinceLastSuccess w.time ∧
      ds.HoursSinceLastSuccess w.time < cfg.minHoursSinceLastSync then
    ⟨.ok (), ds, [],
     [performSyncRecentMsg (ds.HoursSinceLastSuccess w.time) cfg.minHoursSinceLastSync]⟩
  else
    performSyncPipeline w ds

/-- Result of one embedded `runRegister` run. -/
structure RegisterRun where
  result : Except String Unit
  store : DataStore
  events : List Event

/-- Device identifiers sent at registration (`osquery.go`
`AgentDeviceIdentifiers`). -/
structure DeviceIdentifiers where
  hardwareSerial : String := ""
  boardSerial : String := ""
  mac : String := ""
  deriving Repr, DecidableEq

/-- `runRegister` of the CLI `register` command (register source lines
223-312), from the already-registered check onward: persist region,
generate the correlation UUID when absent, initialize the osquery client
(`osquery.NewClient`, lines 270-274 — its failure returns before the
token exchange), exchange the magic-link token (which also fetches and
caches the profile), collect device identifiers, call the registration
endpoint, and persist the app version.  `newUUID` is the value
`uuid.New()` would produce. -/
def runRegister (api : ApiBehavior) (osqueryInit : Except String Unit)
    (identifiers : Except String DeviceIdentifiers)
    (region newUUID cfgVersion : String) (ds : DataStore) : RegisterRun :=
  if ds.IsRegistered then
    ⟨.error "agent is already registered. Use \x27drata-agent unregister\x27 first", ds, []⟩
  else
    let ds := ds.SetRegion region
    let ds := if ds.uuid = "" then ds.SetUUID newUUID else ds
    match osqueryInit with
    | .error e => ⟨.error ("failed to initialize osquery: " ++ e), ds, []⟩
    | .ok _ =>
      match Client.LoginWithMagicLink api ds with
      | (.error e, ds, ev) => ⟨.error ("authentication failed: " ++ e), ds, ev⟩
      | (.ok _, ds, ev) =>
        match identifiers with
        | .error e => ⟨.error ("failed to get device identifiers: " ++ e), ds, ev⟩
        | .ok _ =>
          match Client.Register api ds with
          | (.error e, ds, evR) => ⟨.error ("registration failed: " ++ e), ds, ev ++ evR⟩
          | (.ok _, ds, evR) => ⟨.ok (), ds.SetAppVersion cfgVersion, ev ++ evR⟩

/-! ### TypeScript CLI embedding

The TS CLI (`src/cli/index` entry point plus `cli-config.helper.ts` and
`cli-api.service.ts`) duplicates the agent.  Its config store is a plain
JSON object whose fields may be absent (`Option`); `isRegistered` is the
truthiness of `accessToken`, so an empty string also counts as not
registered. -/

/-- TS persisted configuration (`CliConfig` in `cli-config.helper.ts`).
The TS user object kept by `loginWithMagicLink` is filtered to four
fields. -/
structure TsUser where
  id : Int := 0
  email : String := ""
  firstName : String := ""
  lastName : String := ""
  deriving Repr, DecidableEq

/-- TS persisted configuration record. -/
structure CliConfig where
  uuid : Option String := none
  appVersion : Option String := none
  accessToken : Option String := none
  user : Option TsUser := none
  syncState : Option String := none
  lastCheckedAt : Option String := none
  lastSyncAttemptedAt : Option String := none
  winAvServicesMatchList : Option (List String) := none
  region : Option String := none
  deriving Repr, DecidableEq

/-- `CliConfigHelper.isRegistered`: `!!this.config.accessToken` — absent
and empty-string tokens are both falsy. -/
def CliConfig.isRegistered (c : CliConfig) : Bool :=
  match c.accessToken with
  | some t => t ≠ ""
  | none => false

/-- `CliConfigHelper.isInitDataReady`: the match list is not
`undefined`. -/
def CliConfig.isInitDataReady (c : CliConfig) : Bool :=
  c.winAvServicesMatchList.isSome

/-- Payload of the TS `/agentv2/sync` response that the CLI persists
(`data.data.lastcheckedAt` and `winAvServicesMatchList`). -/
structure TsSyncData where
  lastcheckedAt : String := ""
  winAvServicesMatchList : Option (List String) := none
  deriving Repr, DecidableEq

/-- External world of one TS `sync()` run. -/
structure TsWorld where
  initData : Except String (List String)
  collectResult : Except String QueryResult
  syncResp : QueryResult → Except String TsSyncData
  nowStr : String

/-- Result of one embedded TS `sync()` run. -/
structure TsRun where
  result : Except String Unit
  config : CliConfig
  events : List Event

/-- Steps of the TS `sync()` from the attempt-timestamp write onward
(TS CLI entry point lines 241-267): set `lastSyncAttemptedAt`, set
`RUNNING`, collect, mark `manualRun := true`, upload (persisting
`lastCheckedAt` and the match list), set `SUCCESS`; any thrown error is
caught by the surrounding `catch`, which sets `ERROR`. -/
def tsSyncAfterInit (w : TsWorld) (c : CliConfig) (ev : List Event) : TsRun :=
  let c := { c with lastSyncAttemptedAt := some w.nowStr }
  let c := { c with syncState := some syncStateRunning }
  let ev := ev ++ [.setLastSyncAttemptedAt w.nowStr, .setSyncState syncStateRunning]
  match w.collectResult with
  | .error e =>
    ⟨.error e, { c with syncState := some syncStateError },
     ev ++ [.collect, .setSyncState syncStateError]⟩
  | .ok q =>
    let q := { q with manualRun := true }
    match w.syncResp q with
    | .error e =>
      ⟨.error e, { c with syncState := some syncStateError },
       ev ++ [.collect, .netSync, .setSyncState syncStateError]⟩
    | .ok d =>
      let c := { c with
        lastCheckedAt := some d.lastcheckedAt
        winAvServicesMatchList := d.winAvServicesMatchList }
      ⟨.ok (), { c with syncState := some syncStateSuccess },
       ev ++ [.collect, .netSync, .setSyncState syncStateSuccess]⟩

/-- The TS `sync()` command (TS CLI entry point lines 215-276): when the
cached init data is missing, `apiService.initialData()` runs — a network
call — before `RUNNING` is persisted. -/
def tsSync (w : TsWorld) (c : CliConfig) : TsRun :=
  if c.isRegistered = false then
    ⟨.error "Agent is not registered. Run \x22drata-agent configure\x22 first.", c, []⟩
  else if c.isInitDataReady then
    tsSyncAfterInit w c []
  else
    match w.initData with
    | .error e =>
      ⟨.error e, { c with syncState := some syncStateError },
       [.netInitData, .setSyncState syncStateError]⟩
    | .ok list =>
      tsSyncAfterInit w { c with winAvServicesMatchList := some list } [.netInitData]

/-! ### Linux platform adapter embedding

Probe results are `Option String`: `none` when the external command
errored, `some out` for its trimmed stdout.  Go iterates strings by rune;
`String.data` (a list of code points) matches.  The embedding restricts
Go `unicode.IsLetter`/`IsDigit` to their ASCII fragment
(`Char.isAlpha`/`Char.isDigit`), which agrees with Go on every input the
claims mention. -/

/-- Whitespace recognized by the trimming helpers (`strings.TrimSpace`
in Go, lodash `trim` in TS); restricted to the ASCII fragment. -/
def isSpaceChar (c : Char) : Bool :=
  c == ' ' || c == '\t' || c == '\n' || c == '\r' || c == '\x0b' || c == '\x0c'

/-- `strings.TrimSpace`: drop leading and trailing whitespace. -/
def trimSpace (s : String) : String :=
  ⟨((s.data.dropWhile isSpaceChar).reverse.dropWhile isSpaceChar).reverse⟩

/-- Character validity used by `isValidSessionUser` (part_005 lines
16-20): letters, digits, hyphen, underscore. -/
def isValidSessionChar (c : Char) : Bool :=
  c.isAlpha || c.isDigit || c == '-' || c == '_'

/-- `isValidSessionUser` (part_005 lines 12-22): rejects the empty
string, the literal `root`, and any string with a character outside the
allowed set. -/
def isValidSessionUser (user : String) : Bool :=
  if user = "" || user = "root" then false
  else user.data.all isValidSessionChar

/-- `getDesktopSessionUser` (part_005 lines 24-43): try the `SUDO_USER`,
`LOGNAME` and `USER` environment hints in that order (each trimmed and
validated), then the `logname` command (`none` when it errored), else
the empty string. -/
def getDesktopSessionUser (sudoUser logName userEnv : String)
    (lognameOut : Option String) : String :=
  match [sudoUser, logName, userEnv].findSome? (fun cand =>
      let cand := trimSpace cand
      if isValidSessionUser cand then some cand else none) with
  | some u => u
  | none =>
    match lognameOut with
    | some output =>
      let cand := trimSpace output
      if isValidSessionUser cand then cand else ""
    | none => ""

/-- `isRPMBasedDistro` (part_005 lines 74-90, identical in part_006):
`statExists p` is whether `os.Stat p` succeeded. -/
def isRPMBasedDistro (statExists : String → Bool) : Bool :=
  if statExists "/etc/redhat-release" then true
  else if statExists "/etc/fedora-release" then true
  else if statExists "/usr/bin/dnf" then true
  else if statExists "/usr/bin/yum" then true
  else false

/-- `err == nil && output != ""`: the probe ran and returned a non-empty
(trimmed) result. -/
def probeNonEmpty : Option String → Bool
  | some out => out ≠ ""
  | none => false

/-- Antivirus probe results of the part_005 `getLinuxSystemInfo` (lines
148-188): one package-manager query (`rpm -q clamav` on RPM distros,
`dpkg -l clamav` piped through grep otherwise) plus `flatpak list`
queries in system and user scope. -/
structure AvProbes005 where
  rpmClamav : Option String := none
  dpkgClamav : Option String := none
  flatpakSystem : Option String := none
  flatpakUser : Option String := none
  deriving Repr, DecidableEq

/-- The `passed` flag computed by part_005 lines 148-188: it starts
`false`, the distro-specific package probe may set it, and the flatpak
scope loop (system first, user second, `break` on first hit) may set
it. -/
def antivirusPassed005 (isRPM : Bool) (p : AvProbes005) : Bool :=
  let passed := false
  let passed :=
    if isRPM then
      if probeNonEmpty p.rpmClamav then true else passed
    else
      if probeNonEmpty p.dpkgClamav then true else passed
  if probeNonEmpty p.flatpakSystem then true
  else if probeNonEmpty p.flatpakUser then true
  else passed

/-- Antivirus probe results of the part_006 `getLinuxSystemInfo` (lines
83-128): clamtk and clamav package queries (via `rpm -q` or `dpkg -l`
depending on the distro) plus a single unscoped `flatpak list` query. -/
structure AvProbes006 where
  pkgClamtk : Option String := none
  pkgClamav : Option String := none
  flatpak : Option String := none
  deriving Repr, DecidableEq

/-- The `passed` flag computed by part_006 lines 83-128. -/
def antivirusPassed006 (p : AvProbes006) : Bool :=
  let passed := false
  let passed := if probeNonEmpty p.pkgClamtk then true else passed
  let passed := if probeNonEmpty p.pkgClamav then true else passed
  if probeNonEmpty p.flatpak then true else passed

/-- Value stored under `rawQueryResults["autoUpdateEnabled"]`: either the
literal map with `passed` set to `1` (GNOME Software probe) or the row
returned by the `COUNT(*)` osquery file probe. -/
inductive AutoUpdateFlag where
  | passedOne
  | fileCountRow (row : List (String × String))
  deriving Repr, DecidableEq

/-- Settings-list entry for a probe that succeeded. -/
def optEntry (k : String) : Option String → List (String × String)
  | some v => [(k, v)]
  | none => []

/-- Auto-update probe results of the part_005 `getLinuxSystemInfo`
(lines 223-257). -/
structure AuProbes005 where
  gnomeDownloadUpdates : Option String := none
  rpmTimer : Option String := none
  rpmHistory : Option String := none
  rpmConf : Option String := none
  rpmRecent : Option String := none
  aptConfig : Option String := none
  aptDailyStatus : Option String := none
  aptDailyLogs : Option String := none
  deriving Repr, DecidableEq

/-- The auto-update section of part_005 lines 223-257: the GNOME
Software `download-updates` gsettings probe alone sets
`autoUpdateEnabled` (when its output is the literal `true`); every other
probe only appends to the `autoUpdateSettings` diagnostic list.  Returns
`(autoUpdateEnabled, autoUpdateSettings)`. -/
def autoUpdateSection005 (isRPM : Bool) (p : AuProbes005) :
    Option AutoUpdateFlag × List (String × String) :=
  let enabled :=
    match p.gnomeDownloadUpdates with
    | some out => if out = "true" then some AutoUpdateFlag.passedOne else none
    | none => none
  let settings := optEntry "gnomeSoftwareDownloadUpdates" p.gnomeDownloadUpdates
  let settings :=
    if isRPM then
      settings ++ optEntry "autoUpdateService" p.rpmTimer ++
        optEntry "recentUpdates" p.rpmHistory ++
        optEntry "autoUpdateConfig" p.rpmConf ++
        optEntry "recentPackages" p.rpmRecent
    else
      settings ++ optEntry "aptConfig" p.aptConfig ++
        optEntry "aptDailyStatus" p.aptDailyStatus ++
        optEntry "aptDailyLogs" p.aptDailyLogs
  (enabled, settings)

/-- Auto-update probe results of the part_006 `getLinuxSystemInfo`
(lines 163-201).  `aptFileQuery` is the `queryFirst` result of the
`COUNT(*)` probe on `/etc/apt/apt.conf.d/50unattended-upgrades` (`none`
when the query errored or returned no row). -/
structure AuProbes006 where
  rpmTimer : Option String := none
  gnomeDownloadUpdates : Option String := none
  rpmHistory : Option String := none
  rpmConf : Option String := none
  rpmRecent : Option String := none
  aptFileQuery : Option (List (String × String)) := none
  aptConfig : Option String := none
  aptDailyStatus : Option String := none
  aptDailyLogs : Option String := none
  deriving Repr, DecidableEq

/-- The auto-update section of part_006 lines 163-201.  On RPM distros
the GNOME Software probe sets `autoUpdateEnabled`; on Debian-family
distros the unattended-upgrades file-presence query sets it. -/
def autoUpdateSection006 (isRPM : Bool) (p : AuProbes006) :
    Option AutoUpdateFlag × List (String × String) :=
  if isRPM then
    let settings := optEntry "autoUpdateService" p.rpmTimer
    let enabled :=
      match p.gnomeDownloadUpdates with
      | some out => if out = "true" then some AutoUpdateFlag.passedOne else none
      | none => none
    let settings := settings ++ optEntry "gnomeSoftwareDownloadUpdates" p.gnomeDownloadUpdates
    (enabled,
     settings ++ optEntry "recentUpdates" p.rpmHistory ++
       optEntry "autoUpdateConfig" p.rpmConf ++
       optEntry "recentPackages" p.rpmRecent)
  else
    let enabled :=
      match p.aptFileQuery with
      | some row => some (AutoUpdateFlag.fileCountRow row)
      | none => none
    (enabled,
     optEntry "aptConfig" p.aptConfig ++
       optEntry "aptDailyStatus" p.aptDailyStatus ++
       optEntry "aptDailyLogs" p.aptDailyLogs)

/-! ### TypeScript osquery path validation -/

/-- The shell metacharacters rejected by `validateOsqueryPath`
(`cli-process.helper.ts` line 29). -/
def osqueryForbiddenChars : List Char :=
  [';', '&', '|', '`', '$', '(', ')', '{', '}', '[', ']', '<', '>', '!']

/-- Whether a path contains a forbidden shell metacharacter. -/
def hasUnsafeChar (s : String) : Bool :=
  s.data.any (fun c => osqueryForbiddenChars.contains c)

/-- `validateOsqueryPath` (`cli-process.helper.ts` lines 18-37).
`normalize` and `basename` stand for Node `path.normalize` and
`path.basename`; `existsSync` for `fs.existsSync`.  The checks run on
the normalized path, in source order. -/
def validateOsqueryPath (normalize basename : String → String)
    (existsSync : String → Bool) (osqueryiBinaryPath : String) : Except String Unit :=
  let normalizedPath := normalize osqueryiBinaryPath
  if basename normalizedPath ≠ "osqueryi" then
    .error "Invalid osqueryi binary path: must end with \x22osqueryi\x22"
  else if hasUnsafeChar normalizedPath then
    .error "Invalid osqueryi binary path: contains unsafe characters"
  else if ¬ existsSync normalizedPath then
    .error ("osqueryi binary not found at: " ++ normalizedPath)
  else
    .ok ()

/-- `runQuery` (`cli-process.helper.ts` lines 39-52): validate, then
execute the binary via `execFile`.  `execFileRes path query` is the
outcome of `promiseExecFile`: the stdout on success, or the rejection
when spawning fails or the process reports an error (a non-empty stderr
alongside success only logs and still resolves, so it is collapsed into
the `.ok` case).  The second component is the trace of binary
invocations — the invocation is recorded whenever validation passed,
before the process outcome is known, so a validation failure (and only
that) means the binary is never invoked. -/
def runQuery (normalize basename : String → String) (existsSync : String → Bool)
    (execFileRes : String → String → Except String String)
    (osqueryiBinaryPath query : String) :
    Except String String × List (String × String) :=
  match validateOsqueryPath normalize basename existsSync osqueryiBinaryPath with
  | .error e => (.error e, [])
  | .ok _ =>
    match execFileRes osqueryiBinaryPath query with
    | .error e => (.error e, [(osqueryiBinaryPath, query)])
    | .ok out => (.ok (trimSpace out), [(osqueryiBinaryPath, query)])

/-! ### Helpers for stating the claims -/

/-- Boolean success of an `Except` result. -/
def exceptIsOk {ε α : Type} : Except ε α → Bool
  | .ok _ => true
  | .error _ => false

/-- Whether an event is a network call. -/
def isNetEvent : Event → Bool
  | .netInitData => true
  | .netSync => true
  | .netAuth => true
  | .netGetMe => true
  | .netRegister => true
  | _ => false

/-- `true` when a `RUNNING` store write occurs strictly before the first
network call of the trace (vacuously when there is no network call). -/
def runningSetBeforeFirstNet : List Event → Bool
  | [] => true
  | e :: rest =>
    if e = .setSyncState syncStateRunning then true
    else if isNetEvent e then false
    else runningSetBeforeFirstNet rest

/-! ### Shared lemmas about the embedded pipelines -/

theorem syncStateError_ne_success : syncStateError ≠ syncStateSuccess := by decide

theorem Client.GetInitData_error (api : ApiBehavior) (ds : DataStore) (e : String)
    (h : api.initData = .error e) :
    Client.GetInitData api ds = (.error e, ds, [.netInitData]) := by
  unfold Client.GetInitData; rw [h]

theorem Client.GetInitData_ok (api : ApiBehavior) (ds : DataStore) (r : InitDataResponse)
    (h : api.initData = .ok r) :
    Client.GetInitData api ds =
      (.ok r,
       if r.winAvServicesMatchList.length > 0 then
         ds.SetWinAvServicesMatchList r.winAvServicesMatchList
       else ds,
       [.netInitData]) := by
  unfold Client.GetInitData; rw [h]

theorem runSyncAfterInit_spec (w : SyncWorld) (f : Bool) (ds : DataStore)
    (ev : List Event) :
    (∃ tail, (runSyncAfterInit w f ds ev).events = ev ++ tail) ∧
    ((runSyncAfterInit w f ds ev).store.syncState = syncStateSuccess ∨
      (runSyncAfterInit w f ds ev).store.syncState = syncStateError) ∧
    ((runSyncAfterInit w f ds ev).store.syncState = syncStateSuccess ↔
      exceptIsOk (runSyncAfterInit w f ds ev).result = true) := by
  unfold runSyncAfterInit
  rcases hc : w.collectResult with e | q
  · simp [DataStore.SetSyncState, exceptIsOk, syncStateError_ne_success]
  · rcases hs : w.api.syncResp { q with manualRun := f } with e | r <;>
      simp [Client.Sync, hs, DataStore.SetSyncState, exceptIsOk,
        syncStateError_ne_success]

theorem runSyncPipeline_spec (w : SyncWorld) (f : Bool) (ds : DataStore) :
    (∃ rest, (runSyncPipeline w f ds).events =
      Event.setSyncState syncStateRunning :: rest) ∧
    ((runSyncPipeline w f ds).store.syncState = syncStateSuccess ∨
      (runSyncPipeline w f ds).store.syncState = syncStateError) ∧
    ((runSyncPipeline w f ds).store.syncState = syncStateSuccess ↔
      exceptIsOk (runSyncPipeline w f ds).result = true) := by
  unfold runSyncPipeline
  by_cases hinit :
      ((ds.SetSyncState syncStateRunning).SetLastSyncAttemptedAt w.nowStr).IsInitDataReady = true
  · obtain ⟨⟨tail, ht⟩, hrest⟩ := runSyncAfterInit_spec w f
      ((ds.SetSyncState syncStateRunning).SetLastSyncAttemptedAt w.nowStr)
      [.setSyncState syncStateRunning, .setLastSyncAttemptedAt w.nowStr]
    simp only [hinit, if_true]
    exact ⟨⟨Event.setLastSyncAttemptedAt w.nowStr :: tail, by simpa using ht⟩, hrest⟩
  · simp only [hinit, if_false, Bool.not_eq_true] at *
    simp only [hinit, Bool.false_eq_true, if_false]
    rcases hi : w.api.initData with e | r
    · rw [Client.GetInitData_error _ _ _ hi]
      simp [DataStore.SetSyncState, exceptIsOk, syncStateError_ne_success]
    · rw [Client.GetInitData_ok _ _ _ hi]
      obtain ⟨⟨tail, ht⟩, hrest⟩ := runSyncAfterInit_spec w f
        (if r.winAvServicesMatchList.length > 0 then
          (((ds.SetSyncState syncStateRunning).SetLastSyncAttemptedAt
            w.nowStr).SetWinAvServicesMatchList r.winAvServicesMatchList)
         else (ds.SetSyncState syncStateRunning).SetLastSyncAttemptedAt w.nowStr)
        ([.setSyncState syncStateRunning, .setLastSyncAttemptedAt w.nowStr] ++ [.netInitData])
      exact ⟨⟨Event.setLastSyncAttemptedAt w.nowStr :: Event.netInitData :: tail,
        by simpa using ht⟩, hrest⟩

theorem performSyncAfterInit_spec (w : SyncWorld) (ds : DataStore)
    (ev : List Event) :
    (∃ tail, (performSyncAfterInit w ds ev).events = ev ++ tail) ∧
    ((performSyncAfterInit w ds ev).store.syncState = syncStateSuccess ∨
      (performSyncAfterInit w ds ev).store.syncState = syncStateError) ∧
    ((performSyncAfterInit w ds ev).store.syncState = syncStateSuccess ↔
      exceptIsOk (performSyncAfterInit w ds ev).result = true) := by
  unfold performSyncAfterInit
  rcases hc : w.collectResult with e | q
  · simp [DataStore.SetSyncState, exceptIsOk, syncStateError_ne_success]
  · rcases hs : w.api.syncResp q with e | r <;>
      simp [Client.Sync, hs, DataStore.SetSyncState, exceptIsOk,
        syncStateError_ne_success]

theorem performSyncPipeline_spec (w : SyncWorld) (ds : DataStore) :
    (∃ rest, (performSyncPipeline w ds).events =
      Event.setSyncState syncStateRunning :: rest) ∧
    ((performSyncPipeline w ds).store.syncState = syncStateSuccess ∨
      (performSyncPipeline w ds).store.syncState = syncStateError) ∧
    ((performSyncPipeline w ds).store.syncState = syncStateSuccess ↔
      exceptIsOk (performSyncPipeline w ds).result = true) := by
  unfold performSyncPipeline
  by_cases hinit :
      ((ds.SetSyncState syncStateRunning).SetLastSyncAttemptedAt w.nowStr).IsInitDataReady = true
  · obtain ⟨⟨tail, ht⟩, hrest⟩ := performSyncAfterInit_spec w
      ((ds.SetSyncState syncStateRunning).SetLastSyncAttemptedAt w.nowStr)
      [.setSyncState syncStateRunning, .setLastSyncAttemptedAt w.nowStr]
    simp only [hinit, if_true]
    exact ⟨⟨Event.setLastSyncAttemptedAt w.nowStr :: tail, by simpa using ht⟩, hrest⟩
  · simp only [hinit, if_false, Bool.not_eq_true] at *
    simp only [hinit, Bool.false_eq_true, if_false]
    rcases hi : w.api.initData with e | r
    · rw [Client.GetInitData_error _ _ _ hi]
      simp [DataStore.SetSyncState, exceptIsOk, syncStateError_ne_success]
    · rw [Client.GetInitData_ok _ _ _ hi]
      obtain ⟨⟨tail, ht⟩, hrest⟩ := performSyncAfterInit_spec w
        (if r.winAvServicesMatchList.length > 0 then
          (((ds.SetSyncState syncStateRunning).SetLastSyncAttemptedAt
            w.nowStr).SetWinAvServicesMatchList r.winAvServicesMatchList)
         else (ds.SetSyncState syncStateRunning).SetLastSyncAttemptedAt w.nowStr)
        ([.setSyncState syncStateRunning, .setLastSyncAttemptedAt w.nowStr] ++ [.netInitData])
      exact ⟨⟨Event.setLastSyncAttemptedAt w.nowStr :: Event.netInitData :: tail,
        by simpa using ht⟩, hrest⟩

theorem tsSyncAfterInit_spec (w : TsWorld) (c : CliConfig) (ev : List Event) :
    (∃ tail, (tsSyncAfterInit w c ev).events =
      ev ++ [Event.setLastSyncAttemptedAt w.nowStr,
             Event.setSyncState syncStateRunning] ++ tail) ∧
    ((tsSyncAfterInit w c ev).config.syncState = some syncStateSuccess ∨
      (tsSyncAfterInit w c ev).config.syncState = some syncStateError) ∧
    ((tsSyncAfterInit w c ev).config.syncState = some syncStateSuccess ↔
      exceptIsOk (tsSyncAfterInit w c ev).result = true) := by
  unfold tsSyncAfterInit
  rcases hc : w.collectResult with e | q
  · simp [exceptIsOk, syncStateError_ne_success]
  · rcases hs : w.syncResp { q with manualRun := true } with e | d <;>
      simp [hs, exceptIsOk, syncStateError_ne_success]

theorem syncStateRunning_ne_error : syncStateRunning ≠ syncStateError := by decide

theorem runningSetBeforeFirstNet_of_head (rest : List Event) :
    runningSetBeforeFirstNet (Event.setSyncState syncStateRunning :: rest) = true := by
  unfold runningSetBeforeFirstNet
  simp

theorem runSync_cases (cfg : Config) (w : SyncWorld) (f : Bool) (ds : DataStore) :
    ((runSync cfg w f ds).events = [] ∧ (runSync cfg w f ds).store = ds) ∨
    runSync cfg w f ds = runSyncPipeline w f ds := by
  unfold runSync
  split
  · exact .inl ⟨rfl, rfl⟩
  · split
    · exact .inl ⟨rfl, rfl⟩
    · split
      · exact .inl ⟨rfl, rfl⟩
      · split
        · exact .inl ⟨rfl, rfl⟩
        · split
          · exact .inl ⟨rfl, rfl⟩
          · exact .inr rfl

theorem performSync_cases (cfg : Config) (w : SyncWorld) (ds : DataStore) :
    ((performSync cfg w ds).events = [] ∧ (performSync cfg w ds).store = ds) ∨
    performSync cfg w ds = performSyncPipeline w ds := by
  unfold performSync
  split
  · exact .inl ⟨rfl, rfl⟩
  · split
    · exact .inl ⟨rfl, rfl⟩
    · split
      · exact .inl ⟨rfl, rfl⟩
      · exact .inr rfl

theorem tsSync_cases (w : TsWorld) (c : CliConfig) :
    (tsSync w c).events = [] ∨
    tsSync w c = tsSyncAfterInit w c [] ∨
    (tsSync w c).events = [Event.netInitData, Event.setSyncState syncStateError] ∨
    (∃ list, tsSync w c =
      tsSyncAfterInit w { c with winAvServicesMatchList := some list } [Event.netInitData]) := by
  unfold tsSync
  split
  · exact .inl rfl
  · split
    · exact .inr (.inl rfl)
    · rcases hi : w.initData with e | list
      · exact .inr (.inr (.inl rfl))
      · exact .inr (.inr (.inr ⟨list, rfl⟩))

/-! ### Claim theorems -/

/-- C8: Linux distro dispatch routes to the RPM-family probe set if and
only if at least one marker is present among `/etc/redhat-release`,
`/etc/fedora-release`, `/usr/bin/dnf`, `/usr/bin/yum`; with no marker it
routes Debian-family.  In particular a host exposing only the
redhat-release file (no package-manager binary) is routed RPM-family. -/
theorem isRPMBasedDistro_marker_iff :
    (∀ statExists : String → Bool,
      isRPMBasedDistro statExists = true ↔
        (statExists "/etc/redhat-release" = true ∨
         statExists "/etc/fedora-release" = true ∨
         statExists "/usr/bin/dnf" = true ∨
         statExists "/usr/bin/yum" = true)) ∧
    isRPMBasedDistro (fun p => p == "/etc/redhat-release") = true := by
  constructor
  · intro statExists
    unfold isRPMBasedDistro
    rcases h1 : statExists "/etc/redhat-release" <;>
      rcases h2 : statExists "/etc/fedora-release" <;>
      rcases h3 : statExists "/usr/bin/dnf" <;>
      rcases h4 : statExists "/usr/bin/yum" <;> simp [h1, h2, h3, h4]
  · decide

/-- C4: in both Linux implementations the antivirus `passed` flag is true
iff at least one installed-product probe (the distro package-manager
query plus the flatpak list queries) returned a non-empty result, and
hence false when every probe fails or returns empty. -/
theorem antivirusPassed_iff_some_probe_nonEmpty :
    (∀ (isRPM : Bool) (p : AvProbes005),
      antivirusPassed005 isRPM p =
        ((if isRPM then probeNonEmpty p.rpmClamav else probeNonEmpty p.dpkgClamav) ||
         probeNonEmpty p.flatpakSystem || probeNonEmpty p.flatpakUser)) ∧
    (∀ p : AvProbes006,
      antivirusPassed006 p =
        (probeNonEmpty p.pkgClamtk || probeNonEmpty p.pkgClamav ||
         probeNonEmpty p.flatpak)) := by
  constructor
  · intro isRPM p
    unfold antivirusPassed005
    rcases isRPM <;>
      rcases h1 : probeNonEmpty p.rpmClamav <;>
      rcases h2 : probeNonEmpty p.dpkgClamav <;>
      rcases h3 : probeNonEmpty p.flatpakSystem <;>
      rcases h4 : probeNonEmpty p.flatpakUser <;> simp [h1, h2, h3, h4]
  · intro p
    unfold antivirusPassed006
    rcases h1 : probeNonEmpty p.pkgClamtk <;>
      rcases h2 : probeNonEmpty p.pkgClamav <;>
      rcases h3 : probeNonEmpty p.flatpak <;> simp [h1, h2, h3]

/-- C5 probe input exhibiting the violation: all probes failed except the
apt unattended-upgrades file query. -/
def c5AptOnlyProbes : AuProbes006 :=
  { aptFileQuery := some [("passed", "1")] }

/-- C5 counterexample: in the part_006 implementation on a Debian-family
host, the apt `50unattended-upgrades` file query — which the claim lists
among the diagnostic-only probes — sets `autoUpdateEnabled`: with the
GNOME probe absent in both runs, adding the file-query result changes
the flag from unset to set. -/
theorem autoUpdate_aptFileQuery_sets_flag :
    (autoUpdateSection006 false c5AptOnlyProbes).1 =
      some (AutoUpdateFlag.fileCountRow [("passed", "1")]) ∧
    c5AptOnlyProbes.gnomeDownloadUpdates = (({} : AuProbes006)).gnomeDownloadUpdates ∧
    (autoUpdateSection006 false ({} : AuProbes006)).1 = none ∧
    (autoUpdateSection006 false c5AptOnlyProbes).1 ≠
      (autoUpdateSection006 false ({} : AuProbes006)).1 := by
  refine ⟨rfl, rfl, rfl, ?_⟩
  decide

/-- C5 as amended: in the part_005 implementation (for both distro
families) and in the part_006 RPM branch, `autoUpdateEnabled` is a
function of the GNOME Software `download-updates` probe alone (set
exactly when that probe outputs `true`); in the part_006 Debian branch
it is a function of the apt unattended-upgrades file query alone, and
the remaining diagnostic probes never affect it in either
implementation. -/
theorem autoUpdateEnabled_sources :
    (∀ (isRPM : Bool) (p q : AuProbes005),
      p.gnomeDownloadUpdates = q.gnomeDownloadUpdates →
      (autoUpdateSection005 isRPM p).1 = (autoUpdateSection005 isRPM q).1) ∧
    (∀ (isRPM : Bool) (p : AuProbes005),
      (autoUpdateSection005 isRPM p).1 = some AutoUpdateFlag.passedOne ↔
        p.gnomeDownloadUpdates = some "true") ∧
    (∀ p q : AuProbes006,
      p.gnomeDownloadUpdates = q.gnomeDownloadUpdates →
      (autoUpdateSection006 true p).1 = (autoUpdateSection006 true q).1) ∧
    (∀ p q : AuProbes006,
      p.aptFileQuery = q.aptFileQuery →
      (autoUpdateSection006 false p).1 = (autoUpdateSection006 false q).1) := by
  refine ⟨?_, ?_, ?_, ?_⟩
  · intro isRPM p q h
    unfold autoUpdateSection005
    rw [h]
  · intro isRPM p
    unfold autoUpdateSection005
    rcases h : p.gnomeDownloadUpdates with _ | out
    · simp
    · by_cases ht : out = "true" <;> simp [ht]
  · intro p q h
    unfold autoUpdateSection006
    rw [h]
    simp
  · intro p q h
    unfold autoUpdateSection006
    rw [h]
    simp

/-- C5 witness: the part_005 flag at a concrete probe record with all
diagnostic probes populated equals the flag with them absent. -/
theorem autoUpdateEnabled_sources_witness :
    (autoUpdateSection005 true
      { gnomeDownloadUpdates := some "true", rpmTimer := some "enabled",
        rpmHistory := some "h", rpmConf := some "c", rpmRecent := some "r" }).1 =
    (autoUpdateSection005 true { gnomeDownloadUpdates := some "true" }).1 :=
  autoUpdateEnabled_sources.1 true _ _ rfl

/-- C6: session-user resolution tries the sudo-invoking user, the login
name and the current user (in that order, trimmed), then falls back to
the `logname` command; it rejects the empty string, the literal `root`,
and any candidate containing a character outside letters, digits,
hyphen, underscore.  With sudo-user `root` and login-name `alice` it
resolves to `alice`, and any candidate containing `;rm -rf` is
rejected. -/
theorem getDesktopSessionUser_spec :
    (∀ su ln u lc, isValidSessionUser (trimSpace su) = true →
      getDesktopSessionUser su ln u lc = (trimSpace su)) ∧
    (∀ su ln u lc, isValidSessionUser (trimSpace su) = false →
      isValidSessionUser (trimSpace ln) = true →
      getDesktopSessionUser su ln u lc = (trimSpace ln)) ∧
    (∀ su ln u lc, isValidSessionUser (trimSpace su) = false →
      isValidSessionUser (trimSpace ln) = false → isValidSessionUser (trimSpace u) = true →
      getDesktopSessionUser su ln u lc = (trimSpace u)) ∧
    (∀ su ln u out, isValidSessionUser (trimSpace su) = false →
      isValidSessionUser (trimSpace ln) = false → isValidSessionUser (trimSpace u) = false →
      isValidSessionUser (trimSpace out) = true →
      getDesktopSessionUser su ln u (some out) = (trimSpace out)) ∧
    (isValidSessionUser "" = false ∧ isValidSessionUser "root" = false) ∧
    (∀ (s : String) (c : Char), c ∈ s.data → isValidSessionChar c = false →
      isValidSessionUser s = false) ∧
    (getDesktopSessionUser "root" "alice" "" none = "alice") ∧
    (∀ s : String, (";rm -rf").data <:+: s.data → isValidSessionUser s = false) := by
  have hbad : ∀ (s : String) (c : Char), c ∈ s.data → isValidSessionChar c = false →
      isValidSessionUser s = false := by
    intro s c hc hv
    unfold isValidSessionUser
    split
    · rfl
    · rcases h : s.data.all isValidSessionChar
      · rfl
      · exact absurd (List.all_eq_true.mp h c hc) (by simp [hv])
  refine ⟨?_, ?_, ?_, ?_, ⟨by decide, by decide⟩, hbad, by decide, ?_⟩
  · intro su ln u lc h
    unfold getDesktopSessionUser
    simp [List.findSome?_cons, h]
  · intro su ln u lc h1 h2
    unfold getDesktopSessionUser
    simp [List.findSome?_cons, h1, h2]
  · intro su ln u lc h1 h2 h3
    unfold getDesktopSessionUser
    simp [List.findSome?_cons, h1, h2, h3]
  · intro su ln u out h1 h2 h3 h4
    unfold getDesktopSessionUser
    simp [List.findSome?_cons, h1, h2, h3, h4]
  · intro s hinf
    exact hbad s ';' (hinf.subset (by decide)) (by decide)

/-- C6 witness: conjunct two applied at sudo-user `root`, login-name
`bob`. -/
theorem getDesktopSessionUser_spec_witness :
    getDesktopSessionUser "root" " bob " "" none = "bob" :=
  getDesktopSessionUser_spec.2.1 "root" " bob " "" none (by decide) (by decide)

/-- C7: an error is raised with the binary never invoked exactly when
the normalized path fails one of the three checks (base name not
`osqueryi`, a forbidden shell metacharacter, or no file at the path);
a path passing all three checks is executed, producing exactly one
invocation of the binary (whose own failure, if any, surfaces only
after that invocation). -/
theorem runQuery_validates_osquery_path :
    ∀ (normalize basename : String → String) (existsSync : String → Bool)
      (execFileRes : String → String → Except String String) (p q : String),
      ((exceptIsOk (runQuery normalize basename existsSync execFileRes p q).1 = false ∧
        (runQuery normalize basename existsSync execFileRes p q).2 = []) ↔
        (basename (normalize p) ≠ "osqueryi" ∨ hasUnsafeChar (normalize p) = true ∨
         existsSync (normalize p) = false)) ∧
      ((basename (normalize p) = "osqueryi" ∧ hasUnsafeChar (normalize p) = false ∧
        existsSync (normalize p) = true) →
        (runQuery normalize basename existsSync execFileRes p q).2 = [(p, q)]) := by
  intro normalize basename existsSync execFileRes p q
  unfold runQuery validateOsqueryPath
  by_cases h1 : basename (normalize p) = "osqueryi"
  · by_cases h2 : hasUnsafeChar (normalize p) = true
    · simp [h1, h2, exceptIsOk]
    · by_cases h3 : existsSync (normalize p) = true
      · rcases hx : execFileRes p q with e | out <;> simp [h1, h2, h3, hx, exceptIsOk]
      · simp [h1, h2, h3, exceptIsOk]
  · simp [h1, exceptIsOk]

/-- C7 witness: a path passing all three checks is executed even when
the spawned process itself then fails. -/
theorem runQuery_validates_osquery_path_witness :
    (runQuery (fun s => s) (fun _ => "osqueryi") (fun _ => true)
      (fun _ _ => .error "exit status 1") "/usr/bin/osqueryi" "SELECT 1").2 =
      [("/usr/bin/osqueryi", "SELECT 1")] :=
  (runQuery_validates_osquery_path (fun s => s) (fun _ => "osqueryi") (fun _ => true)
    (fun _ _ => .error "exit status 1") "/usr/bin/osqueryi" "SELECT 1").2
    ⟨rfl, by decide, rfl⟩

/-- API behaviour stub whose every endpoint succeeds with default data;
used by the concrete scenario runs below. -/
def stubApi : ApiBehavior :=
  { initData := .ok {}
    syncResp := fun _ => .ok {}
    authResp := .error "stub"
    meResp := .error "stub"
    registerResp := .error "stub" }

/-- Store of a registered agent whose persisted sync state is `RUNNING`
and whose init data is already cached. -/
def c1store : DataStore :=
  { accessToken := "tok", syncState := "RUNNING",
    winAvServicesMatchList := some ["Defender"] }

/-- World in which the osquery client initializes and collection and
upload succeed. -/
def c1world : SyncWorld :=
  { api := stubApi
    osqueryInit := .ok ()
    collectResult := .ok { drataAgentVersion := "3.9.0-cli", platform := "LINUX" }
    time := { parseRFC3339 := fun _ => none, minutesSince := fun _ => 0,
              hoursSince := fun _ => 0 }
    nowStr := "2026-02-03T00:00:00Z" }

/-- C1 counterexample: a forced CLI `sync` while the persisted state is
`RUNNING` is not refused — the collection-and-upload pipeline runs to
completion (a collect event and an upload network call both occur). -/
theorem runSync_forced_ignores_running_guard :
    c1store.GetSyncState = syncStateRunning ∧
    Event.collect ∈ (runSync {} c1world true c1store).events ∧
    Event.netSync ∈ (runSync {} c1world true c1store).events ∧
    exceptIsOk (runSync {} c1world true c1store).result = true := by
  decide

/-- C1 as amended: the daemon `performSync` always refuses a trigger
while the state is `RUNNING` (it has no force flag), and the CLI
`runSync` refuses it only when `forced` is not set — a registered forced
trigger whose osquery client initializes proceeds into the pipeline,
whatever the state. -/
theorem runningGuard_semantics :
    (∀ (cfg : Config) (w : SyncWorld) (ds : DataStore),
      ds.GetSyncState = syncStateRunning →
      (performSync cfg w ds).result = .ok () ∧
      (performSync cfg w ds).events = [] ∧
      (performSync cfg w ds).store = ds) ∧
    (∀ (cfg : Config) (w : SyncWorld) (ds : DataStore),
      ds.IsRegistered = true →
      ds.GetSyncState = syncStateRunning →
      (runSync cfg w false ds).result = .error "sync is already in progress" ∧
      (runSync cfg w false ds).events = []) ∧
    (∀ (cfg : Config) (w : SyncWorld) (ds : DataStore),
      ds.IsRegistered = true →
      w.osqueryInit = .ok () →
      (runSync cfg w true ds).events.head? = some (Event.setSyncState syncStateRunning)) := by
  refine ⟨?_, ?_, ?_⟩
  · intro cfg w ds h
    unfold performSync
    rw [if_pos h]
    exact ⟨rfl, rfl, rfl⟩
  · intro cfg w ds hreg hrun
    unfold runSync
    rw [if_neg (by simp [hreg]), if_pos ⟨rfl, hrun⟩]
    exact ⟨rfl, rfl⟩
  · intro cfg w ds hreg hosq
    unfold runSync
    rw [if_neg (by simp [hreg]), if_neg (by simp), if_neg (by simp), if_neg (by simp),
      hosq]
    obtain ⟨⟨rest, hev⟩, -⟩ := runSyncPipeline_spec w true ds
    show (runSyncPipeline w true ds).events.head? = _
    rw [hev]
    rfl

/-- C1 witness: the amended guard applied to a concrete `RUNNING`
store. -/
theorem runningGuard_semantics_witness :
    (performSync {} c1world c1store).events = [] :=
  (runningGuard_semantics.1 {} c1world c1store (by decide)).2.1

/-- Time environment under which `c2store`'s last attempt parses and lies
5 minutes in the past. -/
def c2time : TimeEnv :=
  { parseRFC3339 := fun s => if s = "2026-02-03T00:00:00Z" then some 0 else none
    minutesSince := fun _ => 5
    hoursSince := fun _ => 1000 }

/-- Registered store whose last sync attempt was 5 minutes ago. -/
def c2store : DataStore :=
  { accessToken := "tok", lastSyncAttemptedAt := "2026-02-03T00:00:00Z" }

/-- World for the throttled-skip scenario. -/
def c2world : SyncWorld :=
  { api := stubApi
    osqueryInit := .ok ()
    collectResult := .error "unused"
    time := c2time
    nowStr := "2026-02-03T00:05:00Z" }

/-- C2 counterexample: with `minMinutesBetweenSyncs = 15` and a last
attempt 5 minutes ago, the daemon `performSync` (a non-forced sync call)
skips with no events, but its reported message carries the elapsed
minutes and the configured minimum — the remaining wait `10` appears
nowhere in it. -/
theorem performSync_skip_message_lacks_remaining_wait :
    c2store.MinutesSinceLastAttempt c2time = 5 ∧
    (15 : Int) = ({} : Config).minMinutesBetweenSyncs ∧
    (performSync {} c2world c2store).events = [] ∧
    (performSync {} c2world c2store).logs = [performSyncTooSoonMsg 5 15] ∧
    ¬ (toString (15 - 5 : Int)).data <:+: (performSyncTooSoonMsg 5 15).data := by
  refine ⟨by decide, by decide, by decide, by decide, by decide⟩

/-- C2 as amended: a non-forced sync call inside the minimum spacing
window always skips with zero probe executions and zero network calls;
the CLI `runSync` message carries the remaining wait
(`minMinutesBetweenSyncs` minus the elapsed minutes) while the daemon
`performSync` log carries the elapsed minutes and the configured
minimum instead. -/
theorem throttleSkip_semantics :
    (∀ (cfg : Config) (w : SyncWorld) (ds : DataStore),
      ds.IsRegistered = true →
      ds.GetSyncState ≠ syncStateRunning →
      0 ≤ ds.MinutesSinceLastAttempt w.time →
      ds.MinutesSinceLastAttempt w.time < cfg.minMinutesBetweenSyncs →
      (runSync cfg w false ds).result =
        .error (runSyncTooSoonMsg (ds.MinutesSinceLastAttempt w.time)
          (cfg.minMinutesBetweenSyncs - ds.MinutesSinceLastAttempt w.time)) ∧
      (runSync cfg w false ds).events = []) ∧
    (∀ (cfg : Config) (w : SyncWorld) (ds : DataStore),
      ds.GetSyncState ≠ syncStateRunning →
      0 ≤ ds.MinutesSinceLastAttempt w.time →
      ds.MinutesSinceLastAttempt w.time < cfg.minMinutesBetweenSyncs →
      (performSync cfg w ds).result = .ok () ∧
      (performSync cfg w ds).events = [] ∧
      (performSync cfg w ds).logs =
        [performSyncTooSoonMsg (ds.MinutesSinceLastAttempt w.time)
          cfg.minMinutesBetweenSyncs]) ∧
    (∀ m wait : Int, (toString wait).data <:+: (runSyncTooSoonMsg m wait).data) := by
  refine ⟨?_, ?_, ?_⟩
  · intro cfg w ds hreg hstate h0 hlt
    unfold runSync
    rw [if_neg (by simp [hreg]), if_neg (by rintro ⟨-, hr⟩; exact hstate hr),
      if_pos ⟨rfl, h0, hlt⟩]
    exact ⟨rfl, rfl⟩
  · intro cfg w ds hstate h0 hlt
    unfold performSync
    rw [if_neg hstate, if_pos ⟨h0, hlt⟩]
    exact ⟨rfl, rfl, rfl⟩
  · intro m wait
    refine ⟨("sync was attempted " ++ toString m ++ " minutes ago. Wait ").data,
      " more minutes or use --force".data, ?_⟩
    simp [runSyncTooSoonMsg, String.data_append]

/-- C2 witness: the amended skip behaviour at the concrete 5-minute
scenario (CLI side), whose message carries the remaining wait of 10
minutes. -/
theorem throttleSkip_semantics_witness :
    (runSync {} c2world false c2store).result = .error (runSyncTooSoonMsg 5 10) ∧
    (runSync {} c2world false c2store).events = [] := by
  have h := throttleSkip_semantics.1 {} c2world c2store (by decide) (by decide)
    (by decide) (by decide)
  simpa using h

/-- Registered TS configuration with no cached init data. -/
def c3config : CliConfig := { accessToken := some "tok" }

/-- Registered TS configuration with cached init data. -/
def c3readyConfig : CliConfig :=
  { accessToken := some "tok", winAvServicesMatchList := some [] }

/-- TS world in which every step succeeds.  (The TS flow constructs its
service objects without probing the engine binary; engine failures
surface inside `getSystemInfo` and are modelled by `collectResult`.) -/
def c3world : TsWorld :=
  { initData := .ok ["Defender"]
    collectResult := .ok { drataAgentVersion := "3.9.0", platform := "LINUX" }
    syncResp := fun _ => .ok {}
    nowStr := "2026-02-03T00:00:00Z" }

/-- C3 counterexample: in the TS `sync()` with init data not cached, the
very first event is the init-data network call — it precedes the
`RUNNING` store write, on an execution that does reach `RUNNING` (the TS
flow has no throttle checks to fail). -/
theorem tsSync_initFetch_precedes_running :
    (tsSync c3world c3config).events.head? = some Event.netInitData ∧
    Event.setSyncState syncStateRunning ∈ (tsSync c3world c3config).events ∧
    runningSetBeforeFirstNet (tsSync c3world c3config).events = false := by
  decide

/-- C3 as amended: in both Go implementations a `RUNNING` store write
occurs strictly before every network call of the run, and in the TS
implementation this holds exactly when the init data is already cached
(otherwise the init fetch precedes `RUNNING`); in all three, once
`RUNNING` has been written the terminal persisted state is exactly one
of `SUCCESS`/`ERROR`, with `SUCCESS` precisely when the whole pipeline
(init fetch, collection, upload) succeeded. -/
theorem syncStateMachine_spec :
    (∀ (cfg : Config) (w : SyncWorld) (f : Bool) (ds : DataStore),
      runningSetBeforeFirstNet (runSync cfg w f ds).events = true) ∧
    (∀ (cfg : Config) (w : SyncWorld) (ds : DataStore),
      runningSetBeforeFirstNet (performSync cfg w ds).events = true) ∧
    (∀ (w : TsWorld) (c : CliConfig), c.isInitDataReady = true →
      runningSetBeforeFirstNet (tsSync w c).events = true) ∧
    (∀ (cfg : Config) (w : SyncWorld) (f : Bool) (ds : DataStore),
      Event.setSyncState syncStateRunning ∈ (runSync cfg w f ds).events →
      ((runSync cfg w f ds).store.syncState = syncStateSuccess ∨
       (runSync cfg w f ds).store.syncState = syncStateError) ∧
      ((runSync cfg w f ds).store.syncState = syncStateSuccess ↔
        exceptIsOk (runSync cfg w f ds).result = true)) ∧
    (∀ (cfg : Config) (w : SyncWorld) (ds : DataStore),
      Event.setSyncState syncStateRunning ∈ (performSync cfg w ds).events →
      ((performSync cfg w ds).store.syncState = syncStateSuccess ∨
       (performSync cfg w ds).store.syncState = syncStateError) ∧
      ((performSync cfg w ds).store.syncState = syncStateSuccess ↔
        exceptIsOk (performSync cfg w ds).result = true)) ∧
    (∀ (w : TsWorld) (c : CliConfig),
      Event.setSyncState syncStateRunning ∈ (tsSync w c).events →
      ((tsSync w c).config.syncState = some syncStateSuccess ∨
       (tsSync w c).config.syncState = some syncStateError) ∧
      ((tsSync w c).config.syncState = some syncStateSuccess ↔
        exceptIsOk (tsSync w c).result = true)) := by
  refine ⟨?_, ?_, ?_, ?_, ?_, ?_⟩
  · intro cfg w f ds
    rcases runSync_cases cfg w f ds with ⟨he, -⟩ | heq
    · rw [he]; rfl
    · rw [heq]
      obtain ⟨⟨rest, hev⟩, -⟩ := runSyncPipeline_spec w f ds
      rw [hev]
      exact runningSetBeforeFirstNet_of_head rest
  · intro cfg w ds
    rcases performSync_cases cfg w ds with ⟨he, -⟩ | heq
    · rw [he]; rfl
    · rw [heq]
      obtain ⟨⟨rest, hev⟩, -⟩ := performSyncPipeline_spec w ds
      rw [hev]
      exact runningSetBeforeFirstNet_of_head rest
  · intro w c hready
    unfold tsSync
    by_cases hr : c.isRegistered = false
    · rw [if_pos hr]
      rfl
    · rw [if_neg hr, if_pos hready]
      obtain ⟨⟨tail, hev⟩, -⟩ := tsSyncAfterInit_spec w c []
      rw [hev]
      simp [runningSetBeforeFirstNet, isNetEvent]
  · intro cfg w f ds hmem
    rcases runSync_cases cfg w f ds with ⟨he, -⟩ | heq
    · rw [he] at hmem; cases hmem
    · rw [heq] at *
      exact (runSyncPipeline_spec w f ds).2
  · intro cfg w ds hmem
    rcases performSync_cases cfg w ds with ⟨he, -⟩ | heq
    · rw [he] at hmem; cases hmem
    · rw [heq] at *
      exact (performSyncPipeline_spec w ds).2
  · intro w c hmem
    rcases tsSync_cases w c with he | heq | he | ⟨list, heq⟩
    · rw [he] at hmem; cases hmem
    · rw [heq] at *
      exact (tsSyncAfterInit_spec w c []).2
    · rw [he] at hmem
      simp [syncStateRunning_ne_error] at hmem
    · rw [heq] at *
      exact (tsSyncAfterInit_spec w _ [.netInitData]).2

/-- C3 witness: the amended TS ordering conjunct at a concrete
configuration with cached init data. -/
theorem syncStateMachine_spec_witness :
    runningSetBeforeFirstNet (tsSync c3world c3readyConfig).events = true :=
  syncStateMachine_spec.2.2.1 c3world c3readyConfig (by decide)

/-- API behaviour in which the token exchange succeeds (issuing a
credential) but the profile fetch fails. -/
def c9api : ApiBehavior :=
  { initData := .error "unused"
    syncResp := fun _ => .error "unused"
    authResp := .ok { accessToken := "tok" }
    meResp := .error "profile fetch failed"
    registerResp := .ok {} }

/-- C9 counterexample: when the osquery client initializes and the token
exchange succeeds but its profile fetch fails, the handshake does abort
before the registration call, yet the failed run leaves the bearer
credential persisted — the store ends registered. -/
theorem register_profileFetchFailure_keeps_credential :
    exceptIsOk
      (runRegister c9api (.ok ()) (.ok {}) "NA" "uuid-1" "3.9.0-cli" {}).result = false ∧
    Event.netRegister ∉
      (runRegister c9api (.ok ()) (.ok {}) "NA" "uuid-1" "3.9.0-cli" {}).events ∧
    (runRegister c9api (.ok ()) (.ok {}) "NA" "uuid-1" "3.9.0-cli" {}).store.accessToken =
      "tok" ∧
    (runRegister c9api (.ok ()) (.ok {}) "NA" "uuid-1" "3.9.0-cli" {}).store.IsRegistered =
      true := by
  decide

theorem Client.LoginWithMagicLink_authError (api : ApiBehavior) (ds : DataStore)
    (e : String) (h : api.authResp = .error e) :
    Client.LoginWithMagicLink api ds = (.error e, ds, [.netAuth]) := by
  unfold Client.LoginWithMagicLink
  rw [h]

theorem Client.LoginWithMagicLink_meError (api : ApiBehavior) (ds : DataStore)
    (a : AuthResponse) (e : String) (ha : api.authResp = .ok a)
    (hm : api.meResp = .error e) :
    Client.LoginWithMagicLink api ds =
      (.error e,
       if a.accessToken ≠ "" then ds.SetAccessToken a.accessToken else ds,
       [.netAuth, .netGetMe]) := by
  unfold Client.LoginWithMagicLink Client.GetMe
  rw [ha, hm]

/-- C9 as amended: starting from an unregistered store, a failure of the
bootstrap-token POST itself — or of the osquery client initialization
that precedes it — aborts before the registration call with no bearer
credential persisted; when the client initializes and the exchange
returns a credential but the profile fetch that follows fails, the
handshake still aborts before the registration call, but the returned
credential remains persisted. -/
theorem registrationAbort_semantics :
    (∀ (api : ApiBehavior) (osq : Except String Unit)
       (idents : Except String DeviceIdentifiers)
       (region nu ver : String) (ds : DataStore) (e : String),
      ds.IsRegistered = false → api.authResp = .error e →
      exceptIsOk (runRegister api osq idents region nu ver ds).result = false ∧
      Event.netRegister ∉ (runRegister api osq idents region nu ver ds).events ∧
      (runRegister api osq idents region nu ver ds).store.accessToken = "") ∧
    (∀ (api : ApiBehavior) (idents : Except String DeviceIdentifiers)
       (region nu ver : String) (ds : DataStore) (a : AuthResponse) (e : String),
      ds.IsRegistered = false → api.authResp = .ok a → api.meResp = .error e →
      exceptIsOk (runRegister api (.ok ()) idents region nu ver ds).result = false ∧
      Event.netRegister ∉ (runRegister api (.ok ()) idents region nu ver ds).events ∧
      (runRegister api (.ok ()) idents region nu ver ds).store.accessToken =
        (if a.accessToken ≠ "" then a.accessToken else ds.accessToken)) := by
  constructor
  · intro api osq idents region nu ver ds e hreg ha
    simp only [DataStore.IsRegistered, ne_eq, decide_eq_false_iff_not,
      Decidable.not_not] at hreg
    have hlogin : ∀ ds' : DataStore,
        Client.LoginWithMagicLink api ds' = (.error e, ds', [.netAuth]) :=
      fun ds' => Client.LoginWithMagicLink_authError api ds' e ha
    unfold runRegister
    rw [if_neg (by simp [DataStore.IsRegistered, hreg])]
    rcases osq with eOsq | u
    · refine ⟨rfl, ?_, ?_⟩
      · simp
      · simp [DataStore.SetRegion, DataStore.SetUUID, apply_ite, hreg]
    · simp only [hlogin]
      refine ⟨rfl, ?_, ?_⟩
      · simp
      · simp [DataStore.SetRegion, DataStore.SetUUID, apply_ite, hreg]
  · intro api idents region nu ver ds a e hreg ha hm
    simp only [DataStore.IsRegistered, ne_eq, decide_eq_false_iff_not,
      Decidable.not_not] at hreg
    have hlogin : ∀ ds' : DataStore,
        Client.LoginWithMagicLink api ds' =
          (.error e,
           if a.accessToken ≠ "" then ds'.SetAccessToken a.accessToken else ds',
           [.netAuth, .netGetMe]) :=
      fun ds' => Client.LoginWithMagicLink_meError api ds' a e ha hm
    unfold runRegister
    rw [if_neg (by simp [DataStore.IsRegistered, hreg])]
    simp only [hlogin]
    refine ⟨rfl, by decide, ?_⟩
    by_cases htok : a.accessToken = "" <;>
      simp only [htok, ne_eq, not_true_eq_false, not_false_eq_true, if_true,
        if_false, ite_true, ite_false, DataStore.SetAccessToken] <;>
      split <;> simp [DataStore.SetRegion, DataStore.SetUUID, hreg]

/-- C9 witness: the amended abort behaviour at a concrete failing token
exchange (the `stubApi` auth endpoint fails). -/
theorem registrationAbort_semantics_witness :
    exceptIsOk
      (runRegister stubApi (.ok ()) (.ok {}) "NA" "u1" "3.9.0-cli" {}).result = false ∧
    Event.netRegister ∉
      (runRegister stubApi (.ok ()) (.ok {}) "NA" "u1" "3.9.0-cli" {}).events ∧
    (runRegister stubApi (.ok ()) (.ok {}) "NA" "u1" "3.9.0-cli" {}).store.accessToken =
      "" :=
  registrationAbort_semantics.1 stubApi (.ok ()) (.ok {}) "NA" "u1" "3.9.0-cli" {} "stub"
    (by decide) rfl

/-- Registered store whose two persisted timestamps are corrupt (not
RFC3339). -/
def c10store : DataStore :=
  { accessToken := "tok", lastSyncAttemptedAt := "not-a-timestamp",
    lastCheckedAt := "garbage" }

/-- Time environment in which no string parses. -/
def c10time : TimeEnv :=
  { parseRFC3339 := fun _ => none, minutesSince := fun _ => 0, hoursSince := fun _ => 0 }

/-- World for the corrupt-timestamp scenario. -/
def c10world : SyncWorld :=
  { api := stubApi
    osqueryInit := .ok ()
    collectResult := .ok {}
    time := c10time
    nowStr := "2026-02-03T00:00:00Z" }

/-- C10: an empty or unparseable stored timestamp makes
`MinutesSinceLastAttempt` (resp. `HoursSinceLastSuccess`) return `-1`,
and since both throttle checks skip only on a non-negative value, a
non-forced sync whose stored timestamps are missing or corrupt passes
both throttle checks and — once the osquery client initializes —
proceeds into the pipeline exactly as if no attempt had ever been
made. -/
theorem corruptTimestamp_disables_throttle :
    (∀ (env : TimeEnv) (ds : DataStore),
      (ds.lastSyncAttemptedAt = "" ∨ env.parseRFC3339 ds.lastSyncAttemptedAt = none) →
      ds.MinutesSinceLastAttempt env = -1) ∧
    (∀ (env : TimeEnv) (ds : DataStore),
      (ds.lastCheckedAt = "" ∨ env.parseRFC3339 ds.lastCheckedAt = none) →
      ds.HoursSinceLastSuccess env = -1) ∧
    (∀ (cfg : Config) (w : SyncWorld) (ds : DataStore),
      ds.IsRegistered = true →
      ds.GetSyncState ≠ syncStateRunning →
      w.osqueryInit = .ok () →
      ds.MinutesSinceLastAttempt w.time = -1 →
      ds.HoursSinceLastSuccess w.time = -1 →
      (runSync cfg w false ds).events.head? =
        some (Event.setSyncState syncStateRunning) ∧
      (performSync cfg w ds).events.head? =
        some (Event.setSyncState syncStateRunning)) := by
  refine ⟨?_, ?_, ?_⟩
  · intro env ds h
    unfold DataStore.MinutesSinceLastAttempt
    rcases h with h | h
    · simp [h]
    · by_cases he : ds.lastSyncAttemptedAt = "" <;> simp [he, h]
  · intro env ds h
    unfold DataStore.HoursSinceLastSuccess
    rcases h with h | h
    · simp [h]
    · by_cases he : ds.lastCheckedAt = "" <;> simp [he, h]
  · intro cfg w ds hreg hstate hosq hm hh
    constructor
    · unfold runSync
      rw [if_neg (by simp [hreg]), if_neg (by rintro ⟨-, hr⟩; exact hstate hr),
        if_neg (by rintro ⟨-, h0, -⟩; rw [hm] at h0; exact absurd h0 (by decide)),
        if_neg (by rintro ⟨-, h0, -⟩; rw [hh] at h0; exact absurd h0 (by decide)),
        hosq]
      obtain ⟨⟨rest, hev⟩, -⟩ := runSyncPipeline_spec w false ds
      show (runSyncPipeline w false ds).events.head? = _
      rw [hev]
      rfl
    · unfold performSync
      rw [if_neg hstate,
        if_neg (by rintro ⟨h0, -⟩; rw [hm] at h0; exact absurd h0 (by decide)),
        if_neg (by rintro ⟨h0, -⟩; rw [hh] at h0; exact absurd h0 (by decide))]
      obtain ⟨⟨rest, hev⟩, -⟩ := performSyncPipeline_spec w ds
      rw [hev]
      rfl

/-- C10 witness: a registered store with corrupt timestamps proceeds
straight into the pipeline on a non-forced CLI sync whose osquery client
initializes. -/
theorem corruptTimestamp_disables_throttle_witness :
    (runSync {} c10world false c10store).events.head? =
      some (Event.setSyncState syncStateRunning) :=
  (corruptTimestamp_disables_throttle.2.2 {} c10world c10store (by decide)
    (by decide) rfl (by decide) (by decide)).1

end DrataAgent
